import Mathlib

/-!
Verification development for the AccessNX scanner page
(`src/pages/ScannerPage.tsx`): the URL validator, the scan-workflow
controller implicit in `handleScan` / `handleKeyDown` / the disabled
scan button, and the severity ranking of issues (`sortedIssues`).

Strings are modelled as Lean `String`; the character-level operations
(`trim`, `startsWith`, URL parsing) are defined on `String.data`
(`List Char`) so that everything is executable and kernel-reducible.
-/

namespace AccessNX

/-- Numeric code point of a character (used for all character tests). -/
def cp (c : Char) : Nat := c.toNat

/-- ECMAScript whitespace, as removed by `String.prototype.trim`:
WhiteSpace ∪ LineTerminator (TAB, LF, VT, FF, CR, SP, NBSP, Ogham space,
the U+2000–U+200A range, LS, PS, NNBSP, MMSP, ideographic space, FEFF). -/
def isJSWS (c : Char) : Bool :=
  cp c = 0x9 || cp c = 0xA || cp c = 0xB || cp c = 0xC || cp c = 0xD ||
  cp c = 0x20 || cp c = 0xA0 || cp c = 0x1680 ||
  (0x2000 ≤ cp c && cp c ≤ 0x200A) ||
  cp c = 0x2028 || cp c = 0x2029 || cp c = 0x202F || cp c = 0x205F ||
  cp c = 0x3000 || cp c = 0xFEFF

/-- Model of JavaScript `input.trim()` on a character list: remove leading
and trailing ECMAScript whitespace. -/
def jsTrim (l : List Char) : List Char :=
  ((l.dropWhile isJSWS).reverse.dropWhile isJSWS).reverse

/-- C0 control or space (code point ≤ 0x20): what the WHATWG URL parser
strips from the start and end of its input. -/
def isC0Space (c : Char) : Bool := cp c ≤ 0x20

/-- ASCII tab or newline (TAB, LF, CR): removed anywhere in the input by
the WHATWG URL parser. -/
def isTabNL (c : Char) : Bool := cp c = 0x9 || cp c = 0xA || cp c = 0xD

/-- Strip leading and trailing C0-control-or-space characters
(WHATWG URL parser input preprocessing). -/
def wstrip (l : List Char) : List Char :=
  ((l.dropWhile isC0Space).reverse.dropWhile isC0Space).reverse

/-- ASCII alphabetic character. -/
def isAsciiAlpha (c : Char) : Bool :=
  (0x41 ≤ cp c && cp c ≤ 0x5A) || (0x61 ≤ cp c && cp c ≤ 0x7A)

/-- ASCII digit. -/
def isAsciiDigit (c : Char) : Bool := 0x30 ≤ cp c && cp c ≤ 0x39

/-- Character allowed inside a URL scheme after the first (ALPHA / DIGIT /
"+" / "-" / "."). -/
def isSchemeChar (c : Char) : Bool :=
  isAsciiAlpha c || isAsciiDigit c || c = '+' || c = '-' || c = '.'

/-- Lower-case an ASCII letter (schemes are compared case-insensitively). -/
def lowerChar (c : Char) : Char :=
  if 0x41 ≤ cp c && cp c ≤ 0x5A then Char.ofNat (cp c + 32) else c

/-- Scan a scheme: accumulator holds the reversed, lower-cased scheme so
far; stops at the first ":", fails if a non-scheme character or the end of
the input is reached first. -/
def schemeLoop (acc : List Char) : List Char → Option (List Char × List Char)
  | [] => none
  | c :: cs =>
    if c = ':' then some (acc.reverse, cs)
    else if isSchemeChar c then schemeLoop (lowerChar c :: acc) cs
    else none

/-- Split "scheme:rest" per the URL grammar: the scheme starts with an
ASCII letter, continues with scheme characters, and is terminated by ":".
Returns the lower-cased scheme and the remainder, or `none`. -/
def splitScheme : List Char → Option (List Char × List Char)
  | [] => none
  | c :: cs => if isAsciiAlpha c then schemeLoop [lowerChar c] cs else none

/-- The WHATWG special schemes. -/
def specialSchemes : List (List Char) :=
  [['h','t','t','p'], ['h','t','t','p','s'], ['w','s'], ['w','s','s'],
   ['f','t','p'], ['f','i','l','e']]

/-- Character terminating the authority component: "/", "\\", "?" or "#". -/
def isAuthorityEnd (c : Char) : Bool :=
  c = '/' || c = '\\' || c = '?' || c = '#'

/-- Character admissible in the host of a special-scheme URL, restricted to
printable ASCII (IDNA mapping of non-ASCII domains is not modelled): not a
C0 control, space, DEL or non-ASCII, and not a forbidden host code point
("#", "/", ":", "<", ">", "?", "@", "[", "\\", "]", "^", "|"). -/
def goodHostChar (c : Char) : Bool :=
  0x21 ≤ cp c && cp c ≤ 0x7E &&
  !(c = '#' || c = '/' || c = ':' || c = '<' || c = '>' || c = '?' ||
    c = '@' || c = '[' || c = '\\' || c = ']' || c = '^' || c = '|')

/-- The host-and-port part of an authority: what follows the last "@"
(the "@" separates userinfo from host); the whole authority when no "@"
is present. -/
def afterLastAt (l : List Char) : List Char :=
  (l.reverse.takeWhile (fun c => !(c = '@'))).reverse

/-- Numeric value of a digit string. -/
def digitsVal (l : List Char) : Nat :=
  l.foldl (fun n c => n * 10 + (cp c - 0x30)) 0

/-- A valid port: all digits, and (when non-empty) at most 65535. -/
def portOk (l : List Char) : Bool :=
  l.all isAsciiDigit && (l.isEmpty || decide (digitsVal l ≤ 65535))

/-- The host-and-port part of the part after "scheme:": skip the authority
slashes, cut the authority at the first "/", "\\", "?" or "#", and drop
any userinfo. -/
def hostportOf (rest : List Char) : List Char :=
  afterLastAt
    ((rest.dropWhile (fun c => c = '/' || c = '\\')).takeWhile
      (fun c => !(isAuthorityEnd c)))

/-- Validity of a host-and-port: a non-empty host of admissible
characters, with a valid port when a ":" is present (a leading "[" starts
an IPv6 literal, which must end with "]"). -/
def hostportOk : List Char → Bool
  | [] => false
  | c :: t =>
    if c = '[' then (c :: t).getLast? = some ']'
    else
      !((c :: t).takeWhile (fun x => !(x = ':'))).isEmpty &&
      ((c :: t).takeWhile (fun x => !(x = ':'))).all goodHostChar &&
      (!((c :: t).contains ':') ||
        portOk (((c :: t).dropWhile (fun x => !(x = ':'))).drop 1))

/-- Validity of the part after "scheme:" for a special scheme other than
"file". -/
def specialRestOk (rest : List Char) : Bool :=
  hostportOk (hostportOf rest)

/-- Modelled from the WHATWG URL Standard: whether `new URL(s)` (with no
base) succeeds. The parser strips leading/trailing C0-control-or-space,
removes all tabs and newlines, requires a scheme, and for a special scheme
other than "file" requires a valid non-empty host; a "file" URL or a
non-special scheme is accepted. Restricted to ASCII hosts; percent-decoding
and IDNA are not modelled (no claim below involves them). -/
def urlParses (s : String) : Bool :=
  match splitScheme (wstrip (s.data.filter (fun c => !isTabNL c))) with
  | none => false
  | some (scheme, rest) =>
    if scheme ∈ specialSchemes then
      if scheme = ['f','i','l','e'] then true else specialRestOk rest
    else true

/-- Model of JavaScript `input.startsWith('http')`: literal, case-sensitive
prefix test. -/
def startsWithHttp (s : String) : Bool :=
  "http".data.isPrefixOf s.data

/-- Whether a string begins with a URL scheme (ALPHA *(scheme char) ":"),
per the URL grammar. -/
def hasScheme (s : String) : Bool :=
  (splitScheme s.data).isSome

/-- The string handed to `new URL` inside `validateUrl`:
`input.startsWith('http') ? input : https-prefixed input`. -/
def urlToTest (input : String) : String :=
  if startsWithHttp input then input else "https://" ++ input

/-- Embedding of `validateUrl` (ScannerPage.tsx lines 44–53): reject
blank input (`!input.trim()`), otherwise succeed iff `new URL(urlToTest)`
does not throw. -/
def validateUrl (input : String) : Bool :=
  if jsTrim input.data = [] then false
  else urlParses (urlToTest input)

/-- Modelled from the spec: the `Severity` taxonomy of `src/types` (a file
not under the sources), the closed enumeration {critical, moderate, minor}. -/
inductive Severity where
  | critical
  | moderate
  | minor
deriving DecidableEq, Repr

/-- The severity ranking used by the `sortedIssues` comparator
(ScannerPage.tsx lines 88–92): `{ critical: 0, moderate: 1, minor: 2 }`. -/
def severityOrder : Severity → Nat
  | .critical => 0
  | .moderate => 1
  | .minor => 2

/-- Modelled from the spec: the `AccessibilityIssue` shape of `src/types`
(not under the sources), fields per spec §3. -/
structure Issue where
  id : String
  severity : Severity
  wcagRule : String
  wcagLevel : String
  title : String
  explanation : String
  affectedGroups : List String
  suggestedFix : String
  codeSnippet : String
deriving DecidableEq, Repr

/-- Modelled from the spec: the `ComplianceBadge` shape of `src/types`
(not under the sources): id, label, and pass/fail-or-level status. -/
structure ComplianceBadge where
  id : String
  label : String
  status : String
deriving DecidableEq, Repr

/-- Modelled from the spec: the `ScanResult` shape of `src/types`
(not under the sources), fields per spec §3 (the scan date is kept as the
string the collaborator produced). -/
structure ScanResult where
  url : String
  scanDate : String
  score : Nat
  category : String
  issues : List Issue
  complianceBadges : List ComplianceBadge
deriving DecidableEq, Repr

/-- The ordering the ranked sequence satisfies: nondecreasing
`severityOrder` (critical before moderate before minor). -/
def sevLE (a b : Issue) : Prop :=
  severityOrder a.severity ≤ severityOrder b.severity

/-- Insert an issue into a list sorted by `severityOrder`, before the
first element of greater-or-equal rank: one comparator step of the stable
sort performed by `Array.prototype.sort` with the `sortedIssues`
comparator `severityOrder[a.severity] - severityOrder[b.severity]`. -/
def sevInsert (a : Issue) : List Issue → List Issue
  | [] => [a]
  | b :: l =>
    if severityOrder a.severity ≤ severityOrder b.severity then a :: b :: l
    else b :: sevInsert a l

/-- The ranked issue sequence: stable sort by the `sortedIssues`
comparator. `Array.prototype.sort` is required to be stable (ECMA-262),
so its output on this comparator equals the output of any stable sort by
`severityOrder`; insertion sort realises it. -/
def rank : List Issue → List Issue
  | [] => []
  | a :: l => sevInsert a (rank l)

/-- Embedding of the `sortedIssues` computation at a render with a
non-null result (ScannerPage.tsx lines 88–92): `result.issues.sort(cmp)`.
JavaScript `Array.prototype.sort` sorts the array **in place** and returns
that same array; the first component is the value of `sortedIssues`, the
second is the stored `ScanResult` after the call (its `issues` array now
holds the sorted order). -/
def renderSortedIssues (r : ScanResult) : List Issue × ScanResult :=
  (rank r.issues, { r with issues := rank r.issues })

/-- The error message set by `handleScan` when validation fails. -/
def invalidUrlMsg : String := "Please enter a valid website URL."

/-- The `formattedUrl` computed by `handleScan` before calling the scan
collaborator: `url.startsWith('http') ? url : https-prefixed url`. -/
def formattedUrl (url : String) : String :=
  if startsWithHttp url then url else "https://" ++ url

/-- The React state of `ScannerPage` (lines 15–21) relevant to the scan
workflow, plus `pending`: the target of the in-flight collaborator call
(the suspended body of `handleScan` holding `formattedUrl`), `none` when
no call is in flight. -/
structure ScanState where
  url : String
  isScanning : Bool
  error : Option String
  result : Option ScanResult
  pending : Option String
deriving DecidableEq, Repr

/-- The initial state: `url` empty, not scanning, no error, no result. -/
def initState : ScanState :=
  { url := "", isScanning := false, error := none, result := none,
    pending := none }

/-- The synchronous phase of `handleScan` (lines 55–73), up to the
`await`: `setError(null)`; if `validateUrl(url)` fails, set the error
message and return (the result is not touched); otherwise
`setIsScanning(true)` and start the collaborator call on `formattedUrl`. -/
def handleScanStart (s : ScanState) : ScanState :=
  if validateUrl s.url = false then
    { s with error := some invalidUrlMsg }
  else
    { s with error := none, isScanning := true,
             pending := some (formattedUrl s.url) }

/-- Completion of the in-flight scan. On success, `handleScan` resumes:
`setResult(scanResult); setIsScanning(false)`. On collaborator failure
there is no `try`/`catch` in `handleScan`, so the exception rejects the
async function before any further `set*` call runs: `isScanning`, `error`
and `result` are all left as they were. With no in-flight call the event
does nothing. -/
def handleScanResolve (s : ScanState) :
    Except String ScanResult → ScanState
  | .ok r =>
    match s.pending with
    | none => s
    | some _ =>
      { s with result := some r, isScanning := false, pending := none }
  | .error _ =>
    match s.pending with
    | none => s
    | some _ => { s with pending := none }

/-- The discrete events driving the controller: editing the input
(`onChange`), clicking the scan button, pressing Enter in the input, and
the completion of the collaborator call (its outcome modelled from spec
§6: exactly one success with a `ScanResult` or one failure). -/
inductive Event where
  | edit (s : String)
  | click
  | enter
  | resolve (outcome : Except String ScanResult)

/-- One controller step. The input is `disabled={isScanning}`, so
`onChange` cannot fire while scanning; the scan button is
`disabled={isScanning}` (lines 181–186), so `onClick` cannot fire while
scanning; `handleKeyDown` (lines 75–79) runs `handleScan` only when
`event.key === 'Enter' && !isScanning`. -/
def step (s : ScanState) : Event → ScanState
  | .edit u => if s.isScanning then s else { s with url := u }
  | .click => if s.isScanning then s else handleScanStart s
  | .enter => if s.isScanning then s else handleScanStart s
  | .resolve o => handleScanResolve s o

/-- Run the controller from the initial state over a list of events. -/
def run (es : List Event) : ScanState :=
  es.foldl step initState

/-- A state is reachable when some event sequence produces it. -/
def Reachable (s : ScanState) : Prop :=
  ∃ es : List Event, run es = s

/-- A concrete issue of minor severity (for the scenario examples). -/
def exMinor : Issue :=
  { id := "1", severity := .minor, wcagRule := "1.4.3", wcagLevel := "AA",
    title := "m1", explanation := "e1", affectedGroups := ["g1"],
    suggestedFix := "f1", codeSnippet := "c1" }

/-- A concrete issue of critical severity. -/
def exCritical : Issue :=
  { id := "2", severity := .critical, wcagRule := "1.1.1", wcagLevel := "A",
    title := "m2", explanation := "e2", affectedGroups := ["g2"],
    suggestedFix := "f2", codeSnippet := "c2" }

/-- A concrete issue of moderate severity. -/
def exModerate : Issue :=
  { id := "3", severity := .moderate, wcagRule := "2.4.4", wcagLevel := "A",
    title := "m3", explanation := "e3", affectedGroups := ["g3"],
    suggestedFix := "f3", codeSnippet := "c3" }

/-- A concrete scan result whose issues arrive in the order
[minor, critical, moderate] (spec Scenario C). -/
def exResult : ScanResult :=
  { url := "https://example.com", scanDate := "2026-01-01", score := 87,
    category := "good", issues := [exMinor, exCritical, exModerate],
    complianceBadges := [{ id := "b1", label := "WCAG 2.1 AA",
                           status := "fail" }] }

/-- A non-scanning state holding a previous successful result, with an
invalid input typed into the field. -/
def exState : ScanState :=
  { url := "http.foo", isScanning := false, error := none,
    result := some exResult, pending := none }

/-- A state in the middle of a scan of "https://example.com". -/
def exScanningState : ScanState :=
  { url := "example.com", isScanning := true, error := none,
    result := none, pending := some "https://example.com" }

/-- A non-scanning state whose input carries trailing whitespace. -/
def exRawState : ScanState :=
  { url := "http://example.com ", isScanning := false, error := none,
    result := none, pending := none }

/-! ### Theory of the severity ranking -/

theorem mem_sevInsert {x a : Issue} :
    ∀ {l : List Issue}, x ∈ sevInsert a l ↔ x = a ∨ x ∈ l
  | [] => by simp [sevInsert]
  | b :: l => by
    by_cases hc : severityOrder a.severity ≤ severityOrder b.severity
    · simp [sevInsert, hc]
    · simp only [sevInsert, if_neg hc, List.mem_cons, mem_sevInsert]
      tauto

theorem pairwise_sevInsert {a : Issue} :
    ∀ {l : List Issue}, l.Pairwise sevLE → (sevInsert a l).Pairwise sevLE
  | [], _ => by simp [sevInsert, sevLE]
  | b :: l, h => by
    rcases List.pairwise_cons.mp h with ⟨hb, hl⟩
    by_cases hc : severityOrder a.severity ≤ severityOrder b.severity
    · rw [sevInsert, if_pos hc]
      refine List.pairwise_cons.mpr ⟨?_, h⟩
      intro x hx
      rcases List.mem_cons.mp hx with rfl | hx
      · exact hc
      · exact le_trans hc (hb x hx)
    · rw [sevInsert, if_neg hc]
      refine List.pairwise_cons.mpr ⟨?_, pairwise_sevInsert hl⟩
      intro x hx
      rcases mem_sevInsert.mp hx with rfl | hx
      · exact le_of_not_le hc
      · exact hb x hx

theorem rank_pairwise : ∀ l : List Issue, (rank l).Pairwise sevLE
  | [] => by simp [rank]
  | a :: l => pairwise_sevInsert (rank_pairwise l)

theorem filter_sevInsert (k : Severity) (a : Issue) :
    ∀ l : List Issue,
      (sevInsert a l).filter (fun i => decide (i.severity = k)) =
        (a :: l).filter (fun i => decide (i.severity = k))
  | [] => rfl
  | b :: l => by
    by_cases hc : severityOrder a.severity ≤ severityOrder b.severity
    · rw [sevInsert, if_pos hc]
    · rw [sevInsert, if_neg hc]
      by_cases hak : a.severity = k
      · have hbk : ¬b.severity = k := by
          intro hbk
          exact hc (le_of_eq (by rw [hak, hbk]))
        simp only [List.filter_cons, hak, hbk, decide_eq_true_eq,
          if_pos, if_neg, decide_eq_false_iff_not]
        simp only [List.filter, filter_sevInsert k a l, decide_eq_true_eq]
        simp [hak, hbk]
      · simp only [List.filter, filter_sevInsert k a l]
        simp [hak]

theorem rank_filter (k : Severity) :
    ∀ l : List Issue,
      (rank l).filter (fun i => decide (i.severity = k)) =
        l.filter (fun i => decide (i.severity = k))
  | [] => rfl
  | a :: l => by
    rw [rank, filter_sevInsert k a (rank l)]
    simp only [List.filter, rank_filter k l]

theorem rank_eq_self_of_pairwise :
    ∀ {l : List Issue}, l.Pairwise sevLE → rank l = l
  | [], _ => rfl
  | a :: l, h => by
    rcases List.pairwise_cons.mp h with ⟨ha, hl⟩
    rw [rank, rank_eq_self_of_pairwise hl]
    cases l with
    | nil => rfl
    | cons b l =>
      rw [sevInsert,
        if_pos (show severityOrder a.severity ≤ severityOrder b.severity from
          ha b (List.mem_cons_self b l))]

theorem rank_eq_self_iff (l : List Issue) :
    rank l = l ↔ l.Pairwise sevLE := by
  constructor
  · intro h
    rw [← h]
    exact rank_pairwise l
  · exact rank_eq_self_of_pairwise

/-! ### ECMAScript whitespace and the URL parser -/

theorem isJSWS_val {c : Char} (h : isJSWS c = true) :
    cp c ≤ 0x20 ∨ 0xA0 ≤ cp c := by
  simp only [isJSWS, Bool.or_eq_true, decide_eq_true_eq,
    Bool.and_eq_true] at h
  omega

theorem jsws_ne {c d : Char} (h : isJSWS c = true)
    (hd : isJSWS d = false) : ¬(c = d) := by
  intro he
  rw [he, hd] at h
  cases h

theorem goodHostChar_of_jsws {c : Char} (h : isJSWS c = true) :
    goodHostChar c = false := by
  rcases isJSWS_val h with h1 | h1
  · simp [goodHostChar, show ¬(0x21 ≤ cp c) from by omega]
  · simp [goodHostChar, show ¬(cp c ≤ 0x7E) from by omega]

theorem takeWhile_all {α : Type} {p : α → Bool} :
    ∀ {l : List α}, (∀ x ∈ l, p x = true) → l.takeWhile p = l
  | [], _ => rfl
  | a :: l, h => by
    rw [List.takeWhile_cons, h a (List.mem_cons_self a l)]
    simp [takeWhile_all (fun x hx => h x (List.mem_cons_of_mem a hx))]

theorem jsTrim_nil_all {l : List Char} (h : jsTrim l = []) :
    ∀ c ∈ l, isJSWS c = true := by
  rw [jsTrim, List.reverse_eq_nil_iff, List.dropWhile_eq_nil_iff] at h
  intro c hc
  rw [← List.takeWhile_append_dropWhile isJSWS l] at hc
  rcases List.mem_append.mp hc with hc | hc
  · exact List.mem_takeWhile_imp hc
  · exact h c (List.mem_reverse.mpr hc)

theorem mem_afterLastAt {x : Char} {l : List Char}
    (h : x ∈ afterLastAt l) : x ∈ l := by
  rw [afterLastAt, List.mem_reverse] at h
  exact List.mem_reverse.mp (List.takeWhile_sublist _ |>.mem h)

theorem mem_hostportOf {x : Char} {d : List Char}
    (h : x ∈ hostportOf ('/' :: '/' :: d)) : x ∈ d := by
  have h1 := mem_afterLastAt h
  have h2 := (List.takeWhile_sublist _ |>.mem h1)
  have e : List.dropWhile (fun c => c = '/' || c = '\x5c')
      ('/' :: '/' :: d) = List.dropWhile (fun c => c = '/' || c = '\x5c') d :=
    rfl
  rw [e] at h2
  exact List.dropWhile_sublist _ |>.mem h2

theorem hostportOk_allws :
    ∀ {l : List Char}, (∀ c ∈ l, isJSWS c = true) → hostportOk l = false
  | [], _ => rfl
  | c :: t, h => by
    have hc := h c (List.mem_cons_self c t)
    rw [hostportOk, if_neg (jsws_ne hc (by decide))]
    have hcc : (!decide (c = ':')) = true := by
      simp [jsws_ne hc (show isJSWS ':' = false from by decide)]
    rw [List.takeWhile_cons, hcc, if_pos rfl]
    simp only [List.all_cons, goodHostChar_of_jsws hc, Bool.false_and,
      Bool.and_false, Bool.false_and]

theorem specialRestOk_allws {d : List Char}
    (h : ∀ c ∈ d, isJSWS c = true) :
    specialRestOk ('/' :: '/' :: d) = false := by
  rw [specialRestOk]
  exact hostportOk_allws (fun x hx => h x (mem_hostportOf hx))

theorem splitScheme_https (d : List Char) :
    splitScheme ('h' :: 't' :: 't' :: 'p' :: 's' :: ':' :: '/' :: '/' :: d)
      = some (['h', 't', 't', 'p', 's'], '/' :: '/' :: d) := rfl

theorem wstrip_filter_https (u : String)
    (h : ∀ c ∈ u.data, isJSWS c = true) :
    ∃ d, wstrip (("https://" ++ u).data.filter (fun c => !isTabNL c)) =
        'h' :: 't' :: 't' :: 'p' :: 's' :: ':' :: '/' :: '/' :: d ∧
      ∀ c ∈ d, isJSWS c = true := by
  rw [String.data_append, List.filter_append]
  have hfil : ∀ c ∈ u.data.filter (fun c => !isTabNL c), isJSWS c = true :=
    fun c hc => h c (List.mem_of_mem_filter hc)
  generalize hd1 : u.data.filter (fun c => !isTabNL c) = d₁ at hfil
  have e0 : "https://".data.filter (fun c => !isTabNL c) = "https://".data :=
    rfl
  rw [e0, wstrip]
  have e1 : ("https://".data ++ d₁).dropWhile isC0Space =
      "https://".data ++ d₁ := rfl
  rw [e1, List.reverse_append, List.dropWhile_append]
  by_cases he : (d₁.reverse.dropWhile isC0Space).isEmpty = true
  · rw [if_pos he]
    exact ⟨[], rfl, by simp⟩
  · rw [if_neg he, List.reverse_append, List.reverse_reverse]
    refine ⟨(d₁.reverse.dropWhile isC0Space).reverse, rfl, ?_⟩
    intro c hc
    rw [List.mem_reverse] at hc
    exact hfil c (List.mem_reverse.mp (List.dropWhile_sublist _ |>.mem hc))

theorem urlParses_https_allws (u : String)
    (h : ∀ c ∈ u.data, isJSWS c = true) :
    urlParses ("https://" ++ u) = false := by
  obtain ⟨d, hd, hws⟩ := wstrip_filter_https u h
  have e : urlParses ("https://" ++ u) = specialRestOk ('/' :: '/' :: d) := by
    rw [urlParses, hd]
    rfl
  rw [e]
  exact specialRestOk_allws hws

theorem startsWithHttp_https_append (u : String) :
    startsWithHttp ("https://" ++ u) = true := by
  rw [startsWithHttp, String.data_append]
  rfl

theorem jsTrim_https_append_ne (u : String) :
    ¬(jsTrim ("https://" ++ u).data = []) := by
  intro h
  have hh := jsTrim_nil_all h 'h'
    (by rw [String.data_append]; exact List.mem_append_left _ (by decide))
  exact absurd hh (by decide)

/-! ### The claims -/

/-- Claim C1 is false on the code: the state reached by scanning
"example.com" successfully and then submitting the invalid input
"http.foo" has `error` and `result` populated at the same time —
`handleScan` clears only `error` at the start of a submit, never
`result`. -/
theorem claim1_counterexample :
    (run [.edit "example.com", .click, .resolve (.ok exResult),
          .edit "http.foo", .click]).error = some invalidUrlMsg ∧
    (run [.edit "example.com", .click, .resolve (.ok exResult),
          .edit "http.foo", .click]).result = some exResult := by
  decide

/-- Claim C1, amended: at the start of every submit (button click or
Enter) from a non-scanning state, `error` is cleared before validation
runs — it ends up `none` when validation passes and holds the validation
message when it fails — but `result` is left untouched by the submit, so
the mutual-exclusion invariant between `error` and `result` does not hold
for all reachable states. -/
theorem claim1_amended (s : ScanState) (h : s.isScanning = false) :
    (step s Event.click).result = s.result ∧
    (step s Event.enter).result = s.result ∧
    (step s Event.click).error =
      (if validateUrl s.url = true then none else some invalidUrlMsg) ∧
    (step s Event.enter).error =
      (if validateUrl s.url = true then none else some invalidUrlMsg) := by
  by_cases hv : validateUrl s.url = true
  · simp [step, h, handleScanStart, hv]
  · simp only [Bool.not_eq_true] at hv
    simp [step, h, handleScanStart, hv]

/-- Witness for the amended claim C1 at the concrete state `exState`. -/
theorem claim1_witness :
    exState.isScanning = false ∧
    ((step exState Event.click).result = exState.result ∧
     (step exState Event.enter).result = exState.result ∧
     (step exState Event.click).error =
       (if validateUrl exState.url = true then none
        else some invalidUrlMsg) ∧
     (step exState Event.enter).error =
       (if validateUrl exState.url = true then none
        else some invalidUrlMsg)) :=
  ⟨rfl, claim1_amended exState rfl⟩

/-- Claim C2 is false on the code: submitting "notaurl" passes
validation (the `new URL("https://notaurl")` probe succeeds — "notaurl"
is a structurally valid host), so the controller does not fail; it
starts scanning and the collaborator call is in flight. -/
theorem claim2_counterexample :
    validateUrl "notaurl" = true ∧
    (run [.edit "notaurl", .click]).error = none ∧
    (run [.edit "notaurl", .click]).isScanning = true ∧
    ¬((run [.edit "notaurl", .click]).pending = none) := by
  decide

/-- Claim C2, amended: submitting "notaurl" passes validation, because
"https://notaurl" parses as a structurally valid absolute URL; the
controller enters Scanning with no error and calls the scan collaborator
with exactly "https://notaurl". -/
theorem claim2_amended :
    urlParses "https://notaurl" = true ∧
    validateUrl "notaurl" = true ∧
    run [.edit "notaurl", .click] =
      { url := "notaurl", isScanning := true, error := none,
        result := none, pending := some "https://notaurl" } := by
  decide

/-- Claim C3 is false on the code: `sortedIssues` calls
`Array.prototype.sort` on the stored issue array, which sorts it in
place; on `exResult` (issues in order [minor, critical, moderate]) the
stored `ScanResult` — in particular its issues list — is changed by the
render computation. -/
theorem claim3_counterexample :
    ¬((renderSortedIssues exResult).2 = exResult) ∧
    ¬((renderSortedIssues exResult).2.issues = exResult.issues) := by
  decide

/-- Claim C3, amended: the ranked view equals the stable severity sort of
the issues, but it is produced by an in-place sort of the stored array:
after the computation the stored result's issues hold the sorted order,
and the stored `ScanResult` is unchanged precisely when its issues were
already in severity order. -/
theorem claim3_amended (r : ScanResult) :
    (renderSortedIssues r).1 = rank r.issues ∧
    (renderSortedIssues r).2.issues = rank r.issues ∧
    ((renderSortedIssues r).2 = r ↔ r.issues.Pairwise sevLE) := by
  refine ⟨rfl, rfl, ?_, ?_⟩
  · intro h
    exact (rank_eq_self_iff r.issues).mp (congrArg ScanResult.issues h)
  · intro h
    show { r with issues := rank r.issues } = r
    rw [rank_eq_self_of_pairwise h]

/-- Witness for the amended claim C3 at the concrete result `exResult`. -/
theorem claim3_witness :
    (renderSortedIssues exResult).1 = rank exResult.issues ∧
    (renderSortedIssues exResult).2.issues = rank exResult.issues ∧
    ((renderSortedIssues exResult).2 = exResult ↔
      exResult.issues.Pairwise sevLE) :=
  claim3_amended exResult

/-- Claim C4 is false on the code: when the scan collaborator fails,
`handleScan` has no `try`/`catch`, so no transition to a Failed state
occurs — the controller stays scanning with `error` and `result` both
null, and a resubmit of the same URL is a no-op (the controls stay
disabled), not a re-entry into Scanning. -/
theorem claim4_counterexample :
    (run [.edit "example.com", .click,
          .resolve (.error "network error")]).isScanning = true ∧
    (run [.edit "example.com", .click,
          .resolve (.error "network error")]).error = none ∧
    (run [.edit "example.com", .click,
          .resolve (.error "network error")]).result = none ∧
    step (run [.edit "example.com", .click,
          .resolve (.error "network error")]) Event.click =
      run [.edit "example.com", .click,
          .resolve (.error "network error")] := by
  decide

/-- Claim C4, amended: the controller contains no rejection-handling
path. If the collaborator fails while scanning, the rejected async
function performs no further state update: the controller remains in
Scanning (`isScanning` stays true), `error` and `result` are unchanged,
and every subsequent submit is a no-op, so no Failed(scan-error) state
and no re-entry into Scanning exist. -/
theorem claim4_amended (s : ScanState) (msg : String)
    (h : s.isScanning = true) :
    (step s (Event.resolve (Except.error msg))).isScanning = true ∧
    (step s (Event.resolve (Except.error msg))).error = s.error ∧
    (step s (Event.resolve (Except.error msg))).result = s.result ∧
    step (step s (Event.resolve (Except.error msg))) Event.click =
      step s (Event.resolve (Except.error msg)) ∧
    step (step s (Event.resolve (Except.error msg))) Event.enter =
      step s (Event.resolve (Except.error msg)) := by
  cases hp : s.pending <;> simp [step, handleScanResolve, hp, h]

/-- Witness for the amended claim C4 at the concrete state
`exScanningState` with a network failure. -/
theorem claim4_witness :
    exScanningState.isScanning = true ∧
    ((step exScanningState (Event.resolve (Except.error "network error"))).isScanning = true ∧
     (step exScanningState (Event.resolve (Except.error "network error"))).error = exScanningState.error ∧
     (step exScanningState (Event.resolve (Except.error "network error"))).result = exScanningState.result ∧
     step (step exScanningState (Event.resolve (Except.error "network error"))) Event.click =
       step exScanningState (Event.resolve (Except.error "network error")) ∧
     step (step exScanningState (Event.resolve (Except.error "network error"))) Event.enter =
       step exScanningState (Event.resolve (Except.error "network error"))) :=
  ⟨rfl, claim4_amended exScanningState "network error" rfl⟩

/-- Claim C5 is false on the code: "httpx.com" has no URL scheme, yet
`validate("httpx.com")` fails while `validate("https://httpx.com")`
succeeds — the code's scheme test is `startsWith('http')`, not scheme
presence, so "httpx.com" is probed as-is (and fails to parse) instead of
being prefixed. -/
theorem claim5_counterexample :
    hasScheme "httpx.com" = false ∧
    ¬(validateUrl "httpx.com" = validateUrl ("https://" ++ "httpx.com")) := by
  decide

/-- Claim C5, amended: for every input that does not start with the
literal "http" (rather than: every input lacking a scheme), validation of
the input agrees with validation of the input prefixed by "https://". -/
theorem claim5_amended (u : String) (h : startsWithHttp u = false) :
    validateUrl u = validateUrl ("https://" ++ u) := by
  by_cases ht : jsTrim u.data = []
  · rw [validateUrl, if_pos ht, validateUrl,
      if_neg (jsTrim_https_append_ne u), urlToTest,
      if_pos (startsWithHttp_https_append u)]
    exact (urlParses_https_allws u (jsTrim_nil_all ht)).symm
  · rw [validateUrl, if_neg ht, validateUrl,
      if_neg (jsTrim_https_append_ne u), urlToTest, urlToTest,
      if_neg (show ¬(startsWithHttp u = true) from by simp [h]),
      if_pos (startsWithHttp_https_append u)]

/-- Witness for the amended claim C5 at the concrete input
"example.com". -/
theorem claim5_witness :
    startsWithHttp "example.com" = false ∧
    validateUrl "example.com" = validateUrl ("https://" ++ "example.com") :=
  ⟨by decide, claim5_amended "example.com" (by decide)⟩

/-- Claim C6: `rank` is a stable sort by severity under the order
critical < moderate < minor — every adjacent pair of the output is
nondecreasing in `severityOrder`, the subsequence of any fixed severity
equals that subsequence of the input (ties keep their input order), and
the input order [minor, critical, moderate] ranks to
[critical, moderate, minor]. -/
theorem claim6_ranking (l : List Issue) (k : Severity) :
    List.Chain' sevLE (rank l) ∧
    (rank l).filter (fun i => decide (i.severity = k)) =
      l.filter (fun i => decide (i.severity = k)) ∧
    rank [exMinor, exCritical, exModerate] =
      [exCritical, exModerate, exMinor] :=
  ⟨(rank_pairwise l).chain', rank_filter k l, by decide⟩

/-- Witness for claim C6 at the concrete issue list of Scenario C and the
critical severity. -/
theorem claim6_witness :
    List.Chain' sevLE (rank [exMinor, exCritical, exModerate]) ∧
    (rank [exMinor, exCritical, exModerate]).filter
        (fun i => decide (i.severity = Severity.critical)) =
      [exMinor, exCritical, exModerate].filter
        (fun i => decide (i.severity = Severity.critical)) ∧
    rank [exMinor, exCritical, exModerate] =
      [exCritical, exModerate, exMinor] :=
  claim6_ranking [exMinor, exCritical, exModerate] Severity.critical

/-- Claim C7: submitting "example.com" passes validation, the controller
normalizes it to "https://example.com", enters Scanning with no error,
and the collaborator call in flight carries exactly the string
"https://example.com". -/
theorem claim7_scenarioB :
    validateUrl "example.com" = true ∧
    formattedUrl "example.com" = "https://example.com" ∧
    run [.edit "example.com", .click] =
      { url := "example.com", isScanning := true, error := none,
        result := none, pending := some "https://example.com" } := by
  decide

/-- Claim C8: while the controller is scanning, every further submit
event — button click or Enter key — and every input edit is a no-op: the
state (hence the in-flight scan target `pending`, `error` and `result`)
is unchanged and no second collaborator call starts. -/
theorem claim8_scanning_noop (s : ScanState) (h : s.isScanning = true) :
    step s Event.click = s ∧
    step s Event.enter = s ∧
    ∀ u : String, step s (Event.edit u) = s := by
  simp [step, h]

/-- Witness for claim C8 at the concrete state `exScanningState`. -/
theorem claim8_witness :
    exScanningState.isScanning = true ∧
    (step exScanningState Event.click = exScanningState ∧
     step exScanningState Event.enter = exScanningState ∧
     ∀ u : String, step exScanningState (Event.edit u) = exScanningState) :=
  ⟨rfl, claim8_scanning_noop exScanningState rfl⟩

/-- Claim C9 is false on the code as regards inputs like "http.foo": an
input starting with "http" is probed as-is, and "http.foo" is not a
structurally valid URL (it has no scheme terminator), so it is rejected
by validation — not "validated and scanned as-is" — and no collaborator
call occurs. -/
theorem claim9_counterexample :
    startsWithHttp "http.foo" = true ∧
    validateUrl "http.foo" = false ∧
    (run [.edit "http.foo", .click]).pending = none ∧
    (run [.edit "http.foo", .click]).error = some invalidUrlMsg := by
  decide

/-- Claim C9, amended: the scheme-presence test is a case-sensitive
literal prefix check for "http": inputs starting with "http" are probed
as-is with no scheme prepended — so the non-URLs "http.foo" and
"httpx.com" fail validation — while every other input, including the
uppercase-scheme "HTTPS://example.com", has "https://" prepended;
"HTTPS://example.com" is accepted and the collaborator is called with
"https://HTTPS://example.com". -/
theorem claim9_amended :
    startsWithHttp "http.foo" = true ∧
    validateUrl "http.foo" = false ∧
    startsWithHttp "httpx.com" = true ∧
    validateUrl "httpx.com" = false ∧
    startsWithHttp "HTTPS://example.com" = false ∧
    validateUrl "HTTPS://example.com" = true ∧
    run [.edit "HTTPS://example.com", .click] =
      { url := "HTTPS://example.com", isScanning := true, error := none,
        result := none,
        pending := some "https://HTTPS://example.com" } := by
  decide

/-- Claim C10: the raw input is never trimmed or otherwise normalized
before use — for every accepted submit the collaborator target is
exactly the raw input (with "https://" prepended when it does not start
with "http"); in particular "http://example.com " (trailing space)
passes validation and the collaborator receives it with the whitespace
intact. -/
theorem claim10_raw_input (s : ScanState) (h1 : s.isScanning = false)
    (h2 : validateUrl s.url = true) :
    (step s Event.click).pending =
      some (if startsWithHttp s.url then s.url
            else "https://" ++ s.url) ∧
    validateUrl "http://example.com " = true ∧
    (run [.edit "http://example.com ", .click]).pending =
      some "http://example.com " ∧
    ¬(("http://example.com " : String) = "http://example.com") := by
  refine ⟨?_, by decide, by decide, by decide⟩
  simp [step, h1, handleScanStart, h2, formattedUrl]

/-- Witness for claim C10 at the concrete state `exRawState`. -/
theorem claim10_witness :
    exRawState.isScanning = false ∧
    validateUrl exRawState.url = true ∧
    ((step exRawState Event.click).pending =
       some (if startsWithHttp exRawState.url then exRawState.url
             else "https://" ++ exRawState.url) ∧
     validateUrl "http://example.com " = true ∧
     (run [.edit "http://example.com ", .click]).pending =
       some "http://example.com " ∧
     ¬(("http://example.com " : String) = "http://example.com")) :=
  ⟨rfl, by decide, claim10_raw_input exRawState rfl (by decide)⟩

end AccessNX
